import Mathlib

/-!
Verification of the fixed-point validation and submission logic of the vault
front-end (src/src/App.tsx). The embedding models the screen-level state the
validation helpers and the two action buttons read: every wagmi contract read
that may still be `undefined` becomes an `Option`, `bigint` amounts become
`Nat` (they are non-negative on-chain integers), and JavaScript truthiness of
optional bigints (`undefined` and `0n` are falsy) is made explicit.
-/

namespace VaultDapp

/-- Violation kinds of the spec, read off the indicators the screen surfaces:
the red "Vault is paused" banner and the inline red messages under the two
amount inputs (src/src/App.tsx lines 221-226, 271-277, 329-334). -/
inductive ViolationKind
  | VaultPaused
  | BelowMinimum
  | AboveMaximum
  | ExceedsAvailableCapacity
  deriving DecidableEq, Repr

/-- The screen-level state read by the validation helpers and the action
buttons of src/src/App.tsx. An `Option` field models a wagmi read that is
`undefined` until it resolves; `depAmount` and `redShares` are the memoized
parsed input amounts (`bigint`, hence `Nat`); `previewAssets` is the
`previewRedeem` read; `isWriting` is `useWriteContract`'s `isPending`. -/
structure ScreenState where
  isConnected : Bool
  chainId : Nat
  assetAddress : Option Nat
  paused : Option Bool
  availableToDeposit : Option Nat
  minDep : Option Nat
  maxDep : Option Nat
  minWdr : Option Nat
  maxWdr : Option Nat
  depAmount : Nat
  redShares : Nat
  previewAssets : Option Nat
  allowance : Option Nat
  isWriting : Bool
  deriving DecidableEq, Repr

/-- JavaScript truthiness of an optional bigint: `undefined` and `0n` are
falsy, every other bigint is truthy. This is the semantics of the leading
`minDep && ...`, `maxDep && ...`, `availableToDeposit && ...` conjuncts in
the validation helpers (src/src/App.tsx lines 188-193). -/
def truthyNat : Option Nat → Bool
  | none => false
  | some n => n != 0

/-- The chain id of the one supported network (Ethereum Sepolia). -/
def sepoliaChainId : Nat := 11155111

/-- `wrongChain = isConnected && chainId !== sepolia.id`
(src/src/App.tsx line 110). -/
def wrongChain (s : ScreenState) : Bool :=
  s.isConnected && decide (s.chainId ≠ sepoliaChainId)

/-- `belowMinDep = minDep && depAmount > 0n && depAmount < minDep`
(src/src/App.tsx line 188). -/
def belowMinDep (s : ScreenState) : Bool :=
  truthyNat s.minDep && decide (0 < s.depAmount) &&
    decide (s.depAmount < s.minDep.getD 0)

/-- `aboveMaxDep = maxDep && depAmount > 0n && depAmount > maxDep`
(src/src/App.tsx line 189). -/
def aboveMaxDep (s : ScreenState) : Bool :=
  truthyNat s.maxDep && decide (0 < s.depAmount) &&
    decide (s.maxDep.getD 0 < s.depAmount)

/-- `overAvailDep = availableToDeposit && depAmount > availableToDeposit`
(src/src/App.tsx line 190). The leading truthiness conjunct makes both an
unresolved read and a zero capacity skip the check. -/
def overAvailDep (s : ScreenState) : Bool :=
  truthyNat s.availableToDeposit &&
    decide (s.availableToDeposit.getD 0 < s.depAmount)

/-- `aboveMaxWdr = maxWdr && redShares > 0n && previewAssets !== undefined &&
previewAssets > maxWdr` (src/src/App.tsx line 192). -/
def aboveMaxWdr (s : ScreenState) : Bool :=
  truthyNat s.maxWdr && decide (0 < s.redShares) && s.previewAssets.isSome &&
    decide (s.maxWdr.getD 0 < s.previewAssets.getD 0)

/-- `belowMinWdr = minWdr && redShares > 0n && previewAssets !== undefined &&
previewAssets < minWdr` (src/src/App.tsx line 193). -/
def belowMinWdr (s : ScreenState) : Bool :=
  truthyNat s.minWdr && decide (0 < s.redShares) && s.previewAssets.isSome &&
    decide (s.previewAssets.getD 0 < s.minWdr.getD 0)

/-- Whether the red "Vault is paused" banner renders: `{paused && ...}`
(src/src/App.tsx line 221); `Boolean(undefined) = false`. -/
def pausedBanner (s : ScreenState) : Bool := s.paused.getD false

/-- The `disabled` expression of the Deposit button (src/src/App.tsx line
281): `!isConnected || !assetAddress || depAmount === 0n || Boolean(paused)
|| belowMinDep || aboveMaxDep || overAvailDep || wrongChain || isWriting`. -/
def depositDisabled (s : ScreenState) : Bool :=
  !s.isConnected || s.assetAddress.isNone || decide (s.depAmount = 0) ||
    s.paused.getD false || belowMinDep s || aboveMaxDep s || overAvailDep s ||
    wrongChain s || s.isWriting

/-- The `disabled` expression of the Redeem button (src/src/App.tsx line
337): `!isConnected || redShares === 0n || Boolean(paused) || wrongChain`. -/
def redeemDisabled (s : ScreenState) : Bool :=
  !s.isConnected || decide (s.redShares = 0) || s.paused.getD false ||
    wrongChain s

/-- The inline red messages rendered under the deposit input
(src/src/App.tsx lines 271-277). -/
def depositInlineMessages (s : ScreenState) : List String :=
  (if belowMinDep s then ["Below min deposit. "] else []) ++
  (if aboveMaxDep s then ["Above max deposit. "] else []) ++
  (if overAvailDep s then ["Exceeds available to deposit. "] else [])

/-- The inline red messages rendered under the redeem input
(src/src/App.tsx lines 329-334). -/
def redeemInlineMessages (s : ScreenState) : List String :=
  (if belowMinWdr s then ["Below min withdraw. "] else []) ++
  (if aboveMaxWdr s then ["Above max withdraw. "] else [])

/-- The spec's `validateDeposit` violation sequence, assembled from the
indicators the code surfaces for a deposit intent: the paused banner and the
three inline deposit messages (src/src/App.tsx lines 188-190, 221, 271-277),
named with the spec's `ViolationKind`s. -/
def validateDeposit (s : ScreenState) : List ViolationKind :=
  (if pausedBanner s then [ViolationKind.VaultPaused] else []) ++
  (if belowMinDep s then [ViolationKind.BelowMinimum] else []) ++
  (if aboveMaxDep s then [ViolationKind.AboveMaximum] else []) ++
  (if overAvailDep s then [ViolationKind.ExceedsAvailableCapacity] else [])

/-- The spec's `validateRedeem` violation sequence, assembled from the
indicators the code surfaces for a redeem intent (src/src/App.tsx lines
192-193, 221, 329-334). -/
def validateRedeem (s : ScreenState) : List ViolationKind :=
  (if pausedBanner s then [ViolationKind.VaultPaused] else []) ++
  (if belowMinWdr s then [ViolationKind.BelowMinimum] else []) ++
  (if aboveMaxWdr s then [ViolationKind.AboveMaximum] else [])

/-- The actions the deposit onClick handler can perform against the remote
interface. `observeApprovalAccepted` stands for any read of the approval
transaction's confirmed/accepted state (e.g. waiting for a receipt). -/
inductive ChainAction
  | submitApprove (amount : Nat)
  | observeApprovalAccepted
  | submitDeposit (amount : Nat)
  deriving DecidableEq, Repr

/-- Trace of remote-interface actions of the deposit onClick handler
(src/src/App.tsx lines 283-310) on the path where both writes are signed and
broadcast: `if ((allowance ?? 0n) < depAmount)` submit `approve`, then submit
`deposit`. `writeContractAsync` resolves with the transaction hash once the
signed transaction is submitted (the spec's interface treats mutations as
submitted transactions that may still be dropped or reverted); the handler
performs no receipt or confirmation read between the two writes, so no
`observeApprovalAccepted` action occurs anywhere in the trace. -/
def depositFlow (allowance : Option Nat) (amount : Nat) : List ChainAction :=
  (if allowance.getD 0 < amount then [ChainAction.submitApprove amount]
   else []) ++
  [ChainAction.submitDeposit amount]

/-- Outcome of an awaited `writeContractAsync` call: the transaction hash on
submission, or the error it rejects with (user rejection, network error,
remote revert). -/
inductive WriteResult
  | ok (hash : Nat)
  | err (e : Nat)
  deriving DecidableEq, Repr

/-- How an onClick handler finishes. `caughtLogged e` means the error was
caught by the handler's try/catch and logged via `console.error`; `uncaught
e` means the rejection escapes the async handler as an unhandled promise
rejection. -/
inductive HandlerOutcome
  | completed
  | caughtLogged (e : Nat)
  | uncaught (e : Nat)
  | noop
  deriving DecidableEq, Repr

/-- The deposit onClick handler (src/src/App.tsx lines 283-310): returns
early when `address` or `assetAddress` is missing; otherwise runs the
approve-then-deposit sequence inside `try { ... } catch (err) {
console.error('Deposit flow failed', err) }`. The approve write is only
attempted when `(allowance ?? 0n) < depAmount`, and a failed approve stops
the flow before the deposit write. -/
def depositOnClick (address assetAddress allowance : Option Nat)
    (depAmount : Nat) (approveRes depositRes : WriteResult) : HandlerOutcome :=
  match address, assetAddress with
  | some _, some _ =>
    if allowance.getD 0 < depAmount then
      match approveRes with
      | WriteResult.err e => HandlerOutcome.caughtLogged e
      | WriteResult.ok _ =>
        match depositRes with
        | WriteResult.err e => HandlerOutcome.caughtLogged e
        | WriteResult.ok _ => HandlerOutcome.completed
    else
      match depositRes with
      | WriteResult.err e => HandlerOutcome.caughtLogged e
      | WriteResult.ok _ => HandlerOutcome.completed
  | _, _ => HandlerOutcome.noop

/-- The redeem onClick handler (src/src/App.tsx lines 339-349): returns early
when `address` is missing, then awaits the `redeem` write with no try/catch
around it, so a rejected write escapes the async handler. -/
def redeemOnClick (address : Option Nat) (redeemRes : WriteResult) :
    HandlerOutcome :=
  match address with
  | none => HandlerOutcome.noop
  | some _ =>
    match redeemRes with
    | WriteResult.err e => HandlerOutcome.uncaught e
    | WriteResult.ok _ => HandlerOutcome.completed

/-- `const aDec = Number(tokenDecimals ?? 6)` (src/src/App.tsx line 142). -/
def aDec (tokenDecimals : Option Nat) : Nat := tokenDecimals.getD 6

/-- `const vDec = Number(vaultDecimals ?? 18)` (src/src/App.tsx line 116). -/
def vDec (vaultDecimals : Option Nat) : Nat := vaultDecimals.getD 18

/-- The `depAmount` memo (src/src/App.tsx lines 159-161):
`try { return parseUnits(depInput || '0', aDec) } catch { return 0n }`.
`parseU` abstracts the external library's `parseUnits`; `none` models a
thrown parse error, which the catch turns into `0n`. The empty string is
falsy, so `depInput || '0'` replaces it with `"0"`. -/
def depAmountMemo (parseU : String → Nat → Option Nat) (depInput : String)
    (tokenDecimals : Option Nat) : Nat :=
  (parseU (if depInput = "" then "0" else depInput)
    (aDec tokenDecimals)).getD 0

/-- The `redShares` memo (src/src/App.tsx lines 163-165):
`try { return parseUnits(redInput || '0', vDec) } catch { return 0n }`. -/
def redSharesMemo (parseU : String → Nat → Option Nat) (redInput : String)
    (vaultDecimals : Option Nat) : Nat :=
  (parseU (if redInput = "" then "0" else redInput)
    (vDec vaultDecimals)).getD 0

/-- A concrete screen state for the C5 evaluation: connected, right chain,
not paused, limits loaded (minWdr 100, maxWdr 10000), 10 shares requested,
preview resolved to 50 assets (below the withdraw minimum). -/
def belowMinRedeemState : ScreenState :=
  ⟨true, 11155111, some 1, some false, some 5000, some 100, some 10000,
    some 100, some 10000, 0, 10, some 50, some 0, false⟩

/-- A concrete screen state with `paused = true` used by the C8 witness. -/
def pausedState : ScreenState :=
  ⟨true, 11155111, some 1, some true, some 5000, some 100, some 10000,
    some 100, some 10000, 500, 0, none, some 0, false⟩

/-- A concrete screen state with a zero deposit amount used by the C9
witness. -/
def zeroIntentState : ScreenState :=
  ⟨true, 11155111, some 1, some false, some 5000, some 100, some 10000,
    some 100, some 10000, 0, 0, none, some 0, false⟩

/-- C1: the claim requires that when approval is needed (allowance <
requested assets) the deposit call is never issued before the approval's
acceptance by the remote network is observed. In the code's handler trace at
allowance 0 and requested assets 100, the deposit write is submitted directly
after the approve write's submission, and no observation of the approval's
accepted state occurs anywhere in the trace. -/
theorem depositFlow_no_acceptance_before_deposit :
    depositFlow (some 0) 100 =
      [ChainAction.submitApprove 100, ChainAction.submitDeposit 100] ∧
    ChainAction.observeApprovalAccepted ∉ depositFlow (some 0) 100 := by
  decide

/-- C2 counterexample: with `availableToDeposit` defined (but zero) and a
requested amount of 6000 exceeding it, no `ExceedsAvailableCapacity`
violation is reported — the leading JavaScript truthiness check on
`availableToDeposit` treats `0n` like `undefined` and skips the check. -/
theorem overAvail_zero_capacity_missed :
    ViolationKind.ExceedsAvailableCapacity ∉
      validateDeposit ⟨true, 11155111, some 1, some false, some 0, some 100,
        some 10000, some 100, some 10000, 6000, 0, none, some 0, false⟩ := by
  decide

/-- C2 (amended): for every state whose `availableToDeposit` read resolved to
a nonzero value and whose requested deposit amount exceeds it, the
`ExceedsAvailableCapacity` violation is reported. -/
theorem validateDeposit_exceeds_capacity (s : ScreenState) (a : Nat)
    (ha : s.availableToDeposit = some a) (ha0 : a ≠ 0)
    (hgt : a < s.depAmount) :
    ViolationKind.ExceedsAvailableCapacity ∈ validateDeposit s := by
  have hov : overAvailDep s = true := by
    simp [overAvailDep, truthyNat, ha, ha0, hgt]
  simp [validateDeposit, hov]

/-- C2 witness: with `availableToDeposit = 5000` and a requested amount of
6000, the `ExceedsAvailableCapacity` violation is reported. -/
theorem validateDeposit_exceeds_capacity_witness :
    ViolationKind.ExceedsAvailableCapacity ∈
      validateDeposit ⟨true, 11155111, some 1, some false, some 5000,
        some 100, some 10000, some 100, some 10000, 6000, 0, none, some 0,
        false⟩ :=
  validateDeposit_exceeds_capacity _ 5000 rfl (by decide) (by decide)

/-- C3: evaluation at the failing input. With every core policy read still
unresolved (`paused`, `minDepositTx`, `maxDepositTx`, `availableToDeposit`
for deposit; `paused`, `minWithdrawTx`, `maxWithdrawTx` for redeem) but the
connection, asset address, chain and a positive amount in place, both action
buttons are enabled: unresolved policy fields fail open, not safe. -/
theorem unresolved_policy_enables_actions :
    depositDisabled ⟨true, 11155111, some 1, none, none, none, none, none,
      none, 500, 0, none, some 0, false⟩ = false ∧
    redeemDisabled ⟨true, 11155111, some 1, none, none, none, none, none,
      none, 0, 5, some 400, some 0, false⟩ = false := by
  decide

/-- C4: evaluation at the failing input. With 7 shares requested and the
redeem preview (`previewAssets`) still unresolved, the redeem button is
enabled — no "no preview yet" gate exists in its `disabled` expression. -/
theorem redeem_enabled_without_preview :
    redeemDisabled ⟨true, 11155111, some 1, some false, some 5000, some 100,
      some 10000, some 100, some 10000, 0, 7, none, some 0, false⟩
      = false := by
  decide

/-- C5: evaluation at the failing input. With the preview resolved to 50
assets, below the withdraw minimum of 100, the `BelowMinimum` violation is
reported and its inline message rendered, yet the redeem button stays
enabled: the redeem `disabled` expression omits `belowMinWdr`/`aboveMaxWdr`. -/
theorem redeem_violation_does_not_disable :
    ViolationKind.BelowMinimum ∈ validateRedeem belowMinRedeemState ∧
    redeemInlineMessages belowMinRedeemState = ["Below min withdraw. "] ∧
    redeemDisabled belowMinRedeemState = false := by
  decide

/-- C7: evaluation at the failing input. A redeem write that fails with
error 7 escapes the redeem onClick handler uncaught (it has no try/catch),
while the same failure in the deposit flow is caught and logged by the
deposit handler's try/catch. -/
theorem redeem_failure_escapes :
    redeemOnClick (some 1) (WriteResult.err 7) = HandlerOutcome.uncaught 7 ∧
    depositOnClick (some 1) (some 2) (some 0) 100 (WriteResult.err 7)
      (WriteResult.ok 0) = HandlerOutcome.caughtLogged 7 := by
  decide

/-- C8: whenever the `isPaused` read resolved to `true`, the `VaultPaused`
violation is reported (the paused banner renders) and the deposit button is
disabled, whatever the requested amount and the other fields. -/
theorem paused_reports_and_disables (s : ScreenState)
    (h : s.paused = some true) :
    ViolationKind.VaultPaused ∈ validateDeposit s ∧
    depositDisabled s = true := by
  have hp : pausedBanner s = true := by simp [pausedBanner, h]
  refine ⟨?_, ?_⟩
  · simp [validateDeposit, hp]
  · simp [depositDisabled, h]

/-- C8 witness: a concrete paused state reports `VaultPaused` and disables
the deposit button. -/
theorem paused_reports_and_disables_witness :
    ViolationKind.VaultPaused ∈ validateDeposit pausedState ∧
    depositDisabled pausedState = true :=
  paused_reports_and_disables pausedState rfl

/-- C9: a zero requested deposit amount never yields the `BelowMinimum`,
`AboveMaximum` or `ExceedsAvailableCapacity` violations, and the deposit
button is disabled (the `depAmount === 0n` gate), for every state. -/
theorem zero_intent_no_amount_violations (s : ScreenState)
    (h : s.depAmount = 0) :
    ViolationKind.BelowMinimum ∉ validateDeposit s ∧
    ViolationKind.AboveMaximum ∉ validateDeposit s ∧
    ViolationKind.ExceedsAvailableCapacity ∉ validateDeposit s ∧
    depositDisabled s = true := by
  have h1 : belowMinDep s = false := by simp [belowMinDep, h]
  have h2 : aboveMaxDep s = false := by simp [aboveMaxDep, h]
  have h3 : overAvailDep s = false := by simp [overAvailDep, h]
  have hv : validateDeposit s =
      if pausedBanner s then [ViolationKind.VaultPaused] else [] := by
    simp [validateDeposit, h1, h2, h3]
  refine ⟨?_, ?_, ?_, ?_⟩
  · rw [hv]; split <;> simp
  · rw [hv]; split <;> simp
  · rw [hv]; split <;> simp
  · simp [depositDisabled, h]

/-- C9 witness: the concrete zero-amount state has none of the three amount
violations and a disabled deposit button. -/
theorem zero_intent_no_amount_violations_witness :
    ViolationKind.BelowMinimum ∉ validateDeposit zeroIntentState ∧
    ViolationKind.AboveMaximum ∉ validateDeposit zeroIntentState ∧
    ViolationKind.ExceedsAvailableCapacity ∉ validateDeposit zeroIntentState ∧
    depositDisabled zeroIntentState = true :=
  zero_intent_no_amount_violations zeroIntentState rfl

/-- C10: before the asset token's and the vault's `decimals()` reads resolve,
the parsed amounts are scaled with the fallback scales — 6 for the asset
input and 18 for the shares input — whatever the external parser and input
string; and the deposit transaction submits exactly that fallback-scaled
amount. -/
theorem fallback_scales_used (parseU : String → Nat → Option Nat)
    (inp : String) :
    aDec none = 6 ∧ vDec none = 18 ∧
    depAmountMemo parseU inp none =
      (parseU (if inp = "" then "0" else inp) 6).getD 0 ∧
    redSharesMemo parseU inp none =
      (parseU (if inp = "" then "0" else inp) 18).getD 0 ∧
    ChainAction.submitDeposit
        ((parseU (if inp = "" then "0" else inp) 6).getD 0) ∈
      depositFlow (some 0) (depAmountMemo parseU inp none) := by
  refine ⟨rfl, rfl, rfl, rfl, ?_⟩
  simp [depositFlow, depAmountMemo, aDec]

end VaultDapp
